import Mathlib

/-!
Verification development for the case-management business/REST pipeline
of the iris-web repository.

Shallow embedding of:
  - app/business/iocs.py (iocs_create, iocs_update, iocs_delete,
    iocs_build_filter_query, the schema-load wrapper)
  - app/blueprints/rest/v2/cases/iocs.py (get_case_iocs, add_ioc_to_case,
    delete_case_ioc, get_case_ioc, update_ioc)
  - app/blueprints/rest/v2/cases/init (get_cases)
  - app/blueprints/rest/v2/case/api_v2_case_tasks_routes.py (case_delete_task)

External collaborators (marshmallow schema load, module hooks, the
persistence layer, the access controller, pagination) are modelled as
explicit ports or, where the spec fixes their contract, as definitions
marked with a doc comment starting with the words Modelled from the spec.

Stateful code is embedded as explicit state passing over a state type St
holding the database contents, the append-only activity log, and a trace
of observable events (authorization checks, business-operation
invocations, persistence commits, audit records). Exceptions are embedded
as Except values; Python side effects performed before a raise remain in
the returned state.
-/

namespace IrisSpec

/-! Data model -/

/-- An indicator of compromise row, following the columns of the Ioc model
that app/business/iocs.py reads and writes. -/
structure Ioc where
  ioc_id : Nat
  ioc_uuid : String
  ioc_value : String
  ioc_type_id : Nat
  ioc_description : String
  ioc_tlp_id : Nat
  ioc_tags : String
  ioc_misp : String
  user_id : Nat
  case_id : Nat
deriving DecidableEq, Repr

/-- A task row, following the columns read by the task REST handlers. -/
structure CaseTask where
  task_id : Nat
  task_case_id : Nat
  task_title : String
deriving DecidableEq, Repr

/-- A case row, as serialized by the cases list endpoint. -/
structure CaseRow where
  case_id : Nat
  case_name : String
deriving DecidableEq, Repr

/-- One entry of the append-only activity tracker. -/
structure ActivityEntry where
  caseid : Nat
  message : String
deriving DecidableEq, Repr

/-- Observable events of one request, in execution order. -/
inductive BizOp where
  | getOp
  | createOp
  | updateOp
  | deleteOp
deriving DecidableEq, Repr

inductive Event where
  | authCheck (caseid : Nat) (allowed : Bool)
  | bizInvoked (op : BizOp) (identifier : Nat)
  | persisted (caseid : Nat)
  | tracked (caseid : Nat)
deriving DecidableEq, Repr

/-- Database contents shared by all operations. -/
structure DB where
  iocs : List Ioc
  tasks : List CaseTask
  cases : List CaseRow
  valid_type_ids : List Nat
  activity : List ActivityEntry
deriving DecidableEq, Repr

/-- Full state threaded through an operation: database plus event trace. -/
structure St where
  db : DB
  trace : List Event
deriving DecidableEq, Repr

def logEv (st : St) (e : Event) : St :=
  { st with trace := st.trace ++ [e] }

/-! Error taxonomy.  BusinessProcessingError carries an optional data
payload which in the source is either a marshmallow field-message map or a
wrapped exception; the three shapes get one constructor each. -/

inductive BErr where
  | validationError (msgs : List (String × String))
  | objectNotFoundError
  | bpePlain (msg : String)
  | bpeMessages (msg : String) (msgs : List (String × String))
  | bpeWrapped (msg : String) (inner : BErr)
deriving DecidableEq, Repr

def BErr.is_business_processing_error : BErr → Bool
  | .bpePlain _ => true
  | .bpeMessages _ _ => true
  | .bpeWrapped _ _ => true
  | _ => false

def BErr.get_message : BErr → String
  | .validationError _ => "ValidationError"
  | .objectNotFoundError => "Object not found"
  | .bpePlain m => m
  | .bpeMessages m _ => m
  | .bpeWrapped m _ => m

def BErr.get_data : BErr → Option ((List (String × String)) ⊕ BErr)
  | .bpeMessages _ msgs => some (Sum.inl msgs)
  | .bpeWrapped _ e => some (Sum.inr e)
  | _ => none

/-! Access control.  ac_fast_check_current_user_has_case_access lives in
app/iris_engine/access_control/utils.py which is not part of the shown
sources. -/

/-- Per-case access level.  The spec orders it none, read_only,
full_access; the constructor for the bottom level is called no_access
here to avoid clashing with Option.none. -/
inductive CaseAccessLevel where
  | no_access
  | read_only
  | full_access
deriving DecidableEq, Repr

def levelRank : CaseAccessLevel → Nat
  | .no_access => 0
  | .read_only => 1
  | .full_access => 2

/-- A user: identifier, global permission flags, per-case grants. -/
structure User where
  id : Nat
  has_server_administrator : Bool
  grants : List (Nat × CaseAccessLevel)
deriving DecidableEq, Repr

/-- Modelled from the spec: effective access level of a user on a case is
the direct grant consulted for the (user, case) pair, absence of any
grant being equivalent to level none. -/
def effective_level (u : User) (caseid : Nat) : CaseAccessLevel :=
  match u.grants.find? (fun g => g.1 == caseid) with
  | some g => g.2
  | none => .no_access

def min_required_rank (levels : List CaseAccessLevel) : Nat :=
  (levels.map levelRank).foldr Nat.min 2

/-- Modelled from the spec: AccessController.authorize; the function
ac_fast_check_current_user_has_case_access is not among the shown
sources.  A holder of the global server_administrator permission is
allowed unconditionally; otherwise allow iff the effective level is
greater than or equal to the minimum level present in the required set. -/
def ac_fast_check_user_has_case_access (u : User) (caseid : Nat)
    (levels : List CaseAccessLevel) : Bool :=
  u.has_server_administrator
    || decide (min_required_rank levels ≤ levelRank (effective_level u caseid))

/-! Persistence ports.  get_ioc, add_ioc, delete_ioc, check_ioc_type_id,
update_ioc_state live in app/datamgmt which is not part of the shown
sources; they are modelled from the spec persistence contract. -/

def get_ioc (db : DB) (identifier : Nat) : Option Ioc :=
  db.iocs.find? (fun i => i.ioc_id == identifier)

def check_ioc_type_id (db : DB) (type_id : Nat) : Bool :=
  db.valid_type_ids.contains type_id

def freshIocId (db : DB) : Nat :=
  (db.iocs.map Ioc.ioc_id).foldr Nat.max 0 + 1

/-- Modelled from the spec: the persistence insert for create.  The row
is stored with a fresh identifier, the acting user and the owning case;
the Bool of the returned pair mirrors the existed flag of add_ioc, which
the business layer discards. -/
def add_ioc (st : St) (ioc : Ioc) (user_id caseid : Nat) : Ioc × Bool × St :=
  let ioc' := { ioc with ioc_id := freshIocId st.db, user_id := user_id, case_id := caseid }
  (ioc', false,
    { st with db := { st.db with iocs := st.db.iocs ++ [ioc'] },
              trace := st.trace ++ [Event.persisted caseid] })

/-- Modelled from the spec: the commit point of update (update_ioc_state
followed by db.session.commit), replacing the stored row by the merged
entity. -/
def commit_ioc_update (st : St) (caseid identifier : Nat) (merged : Ioc) : St :=
  { st with
      db := { st.db with
                iocs := st.db.iocs.map (fun i => if i.ioc_id == identifier then merged else i) },
      trace := st.trace ++ [Event.persisted caseid] }

/-- Modelled from the spec: the persistence delete. -/
def delete_ioc_db (st : St) (ioc : Ioc) : St :=
  { st with
      db := { st.db with iocs := st.db.iocs.filter (fun i => i.ioc_id != ioc.ioc_id) },
      trace := st.trace ++ [Event.persisted ioc.case_id] }

/-- Modelled from the spec: ActivityTracker.record appends one immutable
entry; track_activity lives in app/iris_engine/utils/tracker.py which is
not among the shown sources. -/
def track_activity (st : St) (message : String) (caseid : Nat) : St :=
  { st with
      db := { st.db with activity := st.db.activity ++ [ActivityEntry.mk caseid message] },
      trace := st.trace ++ [Event.tracked caseid] }

/-! Raw request payload and the external collaborator ports. -/

/-- The raw request body as seen by the marshmallow schema: every field
optional, mirroring a JSON dict. -/
structure RawPayload where
  ioc_id : Option Nat := none
  ioc_uuid : Option String := none
  ioc_value : Option String := none
  ioc_type_id : Option Nat := none
  ioc_description : Option String := none
  ioc_tlp_id : Option Nat := none
  ioc_tags : Option String := none
  ioc_misp : Option String := none
  case_id : Option Nat := none
deriving DecidableEq, Repr

/-- Flask-SQLAlchemy style pagination result returned by the filtering
collaborators. -/
structure Pagination (α : Type) where
  items : List α
  total : Nat
  page : Nat
  pages : Nat
deriving DecidableEq, Repr

def Pagination.has_next {α : Type} (p : Pagination α) : Bool :=
  decide (p.page < p.pages)

def Pagination.next_num {α : Type} (p : Pagination α) : Nat :=
  p.page + 1

/-- Query arguments of the case IOCs list endpoint. -/
structure IocListArgs where
  page : Nat := 1
  per_page : Nat := 10
  order_by : Option String := none
  sort_dir : String := "asc"
  ioc_type_id : Option Nat := none
  ioc_type : Option String := none
  ioc_tlp_id : Option Nat := none
  ioc_value : Option String := none
  ioc_description : Option String := none
  ioc_tags : Option String := none
deriving DecidableEq, Repr

/-- Query arguments of the cases list endpoint. -/
structure CaseListArgs where
  page : Nat := 1
  per_page : Nat := 10
  case_ids : Option (List Nat) := none
  order_by : Option String := none
  sort_dir : String := "asc"
  case_customer_id : Option String := none
  case_name : Option String := none
  case_description : Option String := none
  case_classification_id : Option Nat := none
  case_owner_id : Option Nat := none
  case_opening_user_id : Option Nat := none
  case_severity_id : Option Nat := none
  case_state_id : Option Nat := none
  case_soc_id : Option String := none
  start_open_date : Option String := none
  end_open_date : Option String := none
  is_open : Option Bool := none
deriving DecidableEq, Repr

/-- External collaborator ports: the acting user identity, the module
hooks (call_modules_hook per event), the marshmallow schema loads, and
the filtering collaborators.  All are outside the shown sources. -/
structure Ports where
  currentUserId : Nat
  preloadCreate : RawPayload → Nat → RawPayload
  postloadCreate : Ioc → Nat → Option Ioc
  preloadUpdate : RawPayload → Nat → RawPayload
  postloadUpdate : Ioc → Nat → Option Ioc
  schemaLoad : RawPayload → Except (List (String × String)) Ioc
  schemaLoadMerge : RawPayload → Ioc → Except (List (String × String)) Ioc
  getFilteredIocs : Nat → IocListArgs → DB → Option (Pagination Ioc)
  getFilteredCases : CaseListArgs → Nat → DB → Option (Pagination CaseRow)

/-! Business layer, app/business/iocs.py. -/

/-- Embedding of the private helper that loads the request body through
IocSchema and converts a ValidationError into
BusinessProcessingError with message Data error carrying the per-field
messages. -/
def load_ioc (ports : Ports) (request_data : RawPayload) : Except BErr Ioc :=
  match ports.schemaLoad request_data with
  | .ok ioc => .ok ioc
  | .error msgs => .error (.bpeMessages "Data error" msgs)

/-- The payload dict with the case identifier forced in, as built at the
load call of iocs_create. -/
def forced_create_payload (p : RawPayload) (case_identifier : Nat) : RawPayload :=
  { p with case_id := some case_identifier }

/-- The payload dict with ioc_id and case_id forced in, as built before
the merge load of iocs_update. -/
def forced_update_payload (p : RawPayload) (identifier caseid : Nat) : RawPayload :=
  { p with ioc_id := some identifier, case_id := some caseid }

/-- The merged entity with the acting user recorded, as set just after
the merge load of iocs_update. -/
def with_user (i : Ioc) (uid : Nat) : Ioc :=
  { i with user_id := uid }

/-- Embedding of iocs_create: preload hook, schema load with the case
identifier forced into the payload, IOC-type domain check, persistence
insert, postload hook, and on a truthy hook result one activity entry;
a falsy hook result raises a BusinessProcessingError. -/
def iocs_create (ports : Ports) (request_json : RawPayload) (case_identifier : Nat)
    (st : St) : Except BErr (Ioc × String) × St :=
  let request_data := ports.preloadCreate request_json case_identifier
  match load_ioc ports (forced_create_payload request_data case_identifier) with
  | .error e => (.error e, st)
  | .ok ioc =>
    if check_ioc_type_id st.db ioc.ioc_type_id = false then
      (.error (.bpePlain "Not a valid IOC type"), st)
    else
      let r := add_ioc st ioc ports.currentUserId case_identifier
      let ioc1 := r.1
      let st1 := r.2.2
      match ports.postloadCreate ioc1 case_identifier with
      | some ioc2 =>
        let st2 := track_activity st1 ("added ioc \"" ++ ioc2.ioc_value ++ "\"") case_identifier
        (.ok (ioc2, "IOC added"), st2)
      | none => (.error (.bpePlain "Unable to create IOC for internal reasons"), st1)

/-- Body of iocs_update before its surrounding try-except: fetch, preload
hook, merge-load with ioc_id and case_id forced into the payload,
IOC-type domain check, state bump plus commit, postload hook, activity
entry on a truthy hook result. -/
def iocs_update_body (ports : Ports) (identifier : Nat) (request_json : RawPayload)
    (st : St) : Except BErr (Ioc × String) × St :=
  match get_ioc st.db identifier with
  | none => (.error (.bpePlain "Invalid IOC ID for this case"), st)
  | some ioc =>
    let request_data := ports.preloadUpdate request_json ioc.case_id
    match ports.schemaLoadMerge (forced_update_payload request_data identifier ioc.case_id) ioc with
    | .error msgs => (.error (.validationError msgs), st)
    | .ok merged0 =>
      let merged := with_user merged0 ports.currentUserId
      if check_ioc_type_id st.db merged.ioc_type_id = false then
        (.error (.bpePlain "Not a valid IOC type"), st)
      else
        let st1 := commit_ioc_update st ioc.case_id identifier merged
        match ports.postloadUpdate merged ioc.case_id with
        | some merged2 =>
          let st2 := track_activity st1 ("updated ioc \"" ++ merged2.ioc_value ++ "\"") ioc.case_id
          (.ok (merged, "Updated ioc \"" ++ merged2.ioc_value ++ "\""), st2)
        | none => (.error (.bpePlain "Unable to update ioc for internal reasons"), st1)

/-- Embedding of iocs_update.  The try-except of the source converts a
ValidationError into BusinessProcessingError Data error with the field
messages, and any other exception, including the BusinessProcessingError
raises of the body itself, into BusinessProcessingError with message
Unexpected error server-side wrapping the original exception. -/
def iocs_update (ports : Ports) (identifier : Nat) (request_json : RawPayload)
    (st : St) : Except BErr (Ioc × String) × St :=
  match iocs_update_body ports identifier request_json st with
  | (.ok v, st') => (.ok v, st')
  | (.error (.validationError msgs), st') => (.error (.bpeMessages "Data error" msgs), st')
  | (.error e, st') => (.error (.bpeWrapped "Unexpected error server-side" e), st')

/-- Embedding of iocs_delete: preload hook (result discarded), fetch,
persistence delete, postload hook (result discarded), activity entry. -/
def iocs_delete (ports : Ports) (identifier : Nat) (st : St) :
    Except BErr String × St :=
  match get_ioc st.db identifier with
  | none => (.error (.bpePlain "Not a valid IOC for this case"), st)
  | some ioc =>
    let st1 := delete_ioc_db st ioc
    let st2 := track_activity st1 ("deleted IOC \"" ++ ioc.ioc_value ++ "\"") ioc.case_id
    (.ok ("IOC " ++ toString identifier ++ " deleted"), st2)

/-! Filter query builder, iocs_build_filter_query of app/business/iocs.py.
A query is embedded as the list of equality conditions handed to filter,
with conjunctive semantics, plus the flag recording whether the
deprecation warning for linked_cases was emitted. -/

inductive IocCond where
  | eq_ioc_id (v : Nat)
  | eq_ioc_uuid (v : String)
  | eq_ioc_value (v : String)
  | eq_ioc_type_id (v : Nat)
  | eq_ioc_description (v : String)
  | eq_ioc_tlp_id (v : Nat)
  | eq_ioc_tags (v : String)
  | eq_ioc_misp (v : String)
  | eq_user_id (v : Nat)
deriving DecidableEq, Repr

def IocCond.holds : IocCond → Ioc → Bool
  | .eq_ioc_id v, i => i.ioc_id == v
  | .eq_ioc_uuid v, i => i.ioc_uuid == v
  | .eq_ioc_value v, i => i.ioc_value == v
  | .eq_ioc_type_id v, i => i.ioc_type_id == v
  | .eq_ioc_description v, i => i.ioc_description == v
  | .eq_ioc_tlp_id v, i => i.ioc_tlp_id == v
  | .eq_ioc_tags v, i => i.ioc_tags == v
  | .eq_ioc_misp v, i => i.ioc_misp == v
  | .eq_user_id v, i => i.user_id == v

structure IocQuery where
  conditions : List IocCond
  deprecation_warned : Bool
deriving DecidableEq, Repr

/-- One conditional append, mirroring each if-not-None append of the
source. -/
def appendIf {α : Type} (conds : List IocCond) (o : Option α) (f : α → IocCond) :
    List IocCond :=
  match o with
  | some v => conds ++ [f v]
  | none => conds

/-- Embedding of iocs_build_filter_query: one equality condition appended
per supplied argument, in source order; linked_cases only triggers a
deprecation warning. -/
def iocs_build_filter_query (ioc_id : Option Nat := none) (ioc_uuid : Option String := none)
    (ioc_value : Option String := none) (ioc_type_id : Option Nat := none)
    (ioc_description : Option String := none) (ioc_tlp_id : Option Nat := none)
    (ioc_tags : Option String := none) (ioc_misp : Option String := none)
    (user_id : Option Nat := none) (linked_cases : Option Nat := none) : IocQuery :=
  let conditions : List IocCond := []
  let conditions := appendIf conditions ioc_id IocCond.eq_ioc_id
  let conditions := appendIf conditions ioc_uuid IocCond.eq_ioc_uuid
  let conditions := appendIf conditions ioc_value IocCond.eq_ioc_value
  let conditions := appendIf conditions ioc_type_id IocCond.eq_ioc_type_id
  let conditions := appendIf conditions ioc_description IocCond.eq_ioc_description
  let conditions := appendIf conditions ioc_tlp_id IocCond.eq_ioc_tlp_id
  let conditions := appendIf conditions ioc_tags IocCond.eq_ioc_tags
  let conditions := appendIf conditions ioc_misp IocCond.eq_ioc_misp
  let conditions := appendIf conditions user_id IocCond.eq_user_id
  IocQuery.mk conditions linked_cases.isSome

/-- Conjunctive semantics of filter over the condition list: a row is in
the query result iff it satisfies every condition. -/
def iocMatchesQuery (q : IocQuery) (i : Ioc) : Bool :=
  q.conditions.all (fun c => c.holds i)

/-! REST layer responses and payloads, app/blueprints/rest/endpoints.py
response constructors are external collaborators mapped one to one onto
constructors here. -/

inductive PayloadData where
  | iocData (i : Ioc)
  | taskData (t : CaseTask)
  | paginatedIocs (total : Nat) (data : List Ioc) (last_page current_page : Nat)
      (next_page : Option Nat)
  | paginatedCases (total : Nat) (data : List CaseRow) (last_page current_page : Nat)
      (next_page : Option Nat)
deriving DecidableEq, Repr

inductive ApiResponse where
  | created (data : PayloadData)
  | success (data : PayloadData)
  | deleted
  | notFound
  | apiError (message : String) (data : Option ((List (String × String)) ⊕ BErr))
  | accessDenied (caseid : Nat)
deriving DecidableEq, Repr

/-! Business operations used by the REST v2 handlers that are not among
the shown sources (the handlers import iocs_get and call entity-based
iocs_update and iocs_delete; tasks_get and tasks_delete live in
app/business/tasks.py). -/

/-- Modelled from the spec: the generic get pipeline, fetch with
ObjectNotFoundError if absent, no hooks, no audit. -/
def iocs_get (db : DB) (identifier : Nat) : Except BErr Ioc :=
  match get_ioc db identifier with
  | some ioc => .ok ioc
  | none => .error .objectNotFoundError

/-- Modelled from the spec: the delete pipeline applied to the already
fetched entity, persistence delete then one activity entry on the owning
case. -/
def iocs_delete_entity (st : St) (ioc : Ioc) : St :=
  let st1 := delete_ioc_db st ioc
  track_activity st1 ("deleted IOC \"" ++ ioc.ioc_value ++ "\"") ioc.case_id

/-- Modelled from the spec: the update pipeline applied to the already
fetched entity, mirroring the body of iocs_update without the fetch. -/
def iocs_update_entity (ports : Ports) (ioc : Ioc) (request_json : RawPayload)
    (st : St) : Except BErr Ioc × St :=
  let request_data := ports.preloadUpdate request_json ioc.case_id
  match ports.schemaLoadMerge (forced_update_payload request_data ioc.ioc_id ioc.case_id) ioc with
  | .error msgs => (.error (.bpeMessages "Data error" msgs), st)
  | .ok merged0 =>
    let merged := with_user merged0 ports.currentUserId
    if check_ioc_type_id st.db merged.ioc_type_id = false then
      (.error (.bpePlain "Not a valid IOC type"), st)
    else
      let st1 := commit_ioc_update st ioc.case_id ioc.ioc_id merged
      match ports.postloadUpdate merged ioc.case_id with
      | some merged2 =>
        let st2 := track_activity st1 ("updated ioc \"" ++ merged2.ioc_value ++ "\"") ioc.case_id
        (.ok merged, st2)
      | none => (.error (.bpePlain "Unable to update ioc for internal reasons"), st1)

def get_task (db : DB) (identifier : Nat) : Option CaseTask :=
  db.tasks.find? (fun t => t.task_id == identifier)

/-- Modelled from the spec: tasks_get, fetch with ObjectNotFoundError if
absent. -/
def tasks_get (db : DB) (identifier : Nat) : Except BErr CaseTask :=
  match get_task db identifier with
  | some t => .ok t
  | none => .error .objectNotFoundError

/-- Modelled from the spec: tasks_delete, persistence delete then one
activity entry on the owning case. -/
def tasks_delete (st : St) (task : CaseTask) : St :=
  let st1 : St :=
    { st with
        db := { st.db with tasks := st.db.tasks.filter (fun t => t.task_id != task.task_id) },
        trace := st.trace ++ [Event.persisted task.task_case_id] }
  track_activity st1 ("deleted task \"" ++ task.task_title ++ "\"") task.task_case_id

/-! REST v2 handlers. -/

/-- Embedding of get_case_iocs of app/blueprints/rest/v2/cases/iocs.py:
access check on the path case, filtering collaborator, envelope with
total, data, last_page, current_page and next_page. -/
def get_case_iocs (u : User) (case_id : Nat) (args : IocListArgs) (ports : Ports)
    (st : St) : ApiResponse × St :=
  let allowed := ac_fast_check_user_has_case_access u case_id
      [CaseAccessLevel.read_only, CaseAccessLevel.full_access]
  let st1 := logEv st (Event.authCheck case_id allowed)
  if allowed = false then (ApiResponse.accessDenied case_id, st1)
  else
    match ports.getFilteredIocs case_id args st.db with
    | none => (ApiResponse.apiError "Filtering error" none, st1)
    | some pag =>
      (ApiResponse.success (PayloadData.paginatedIocs pag.total pag.items pag.pages pag.page
        (if pag.has_next then some pag.next_num else none)), st1)

/-- Embedding of add_ioc_to_case: access check on the path case with
full_access required, then iocs_create; a BusinessProcessingError maps to
an error response carrying only the message. -/
def add_ioc_to_case (u : User) (case_id : Nat) (request_json : RawPayload)
    (ports : Ports) (st : St) : ApiResponse × St :=
  let allowed := ac_fast_check_user_has_case_access u case_id [CaseAccessLevel.full_access]
  let st1 := logEv st (Event.authCheck case_id allowed)
  if allowed = false then (ApiResponse.accessDenied case_id, st1)
  else
    let st2 := logEv st1 (Event.bizInvoked BizOp.createOp case_id)
    match iocs_create ports request_json case_id st2 with
    | (.ok (ioc, _), st') => (ApiResponse.created (PayloadData.iocData ioc), st')
    | (.error e, st') => (ApiResponse.apiError e.get_message none, st')

/-- Embedding of delete_case_ioc: fetch by identifier first, then access
check against the owning case of the fetched IOC, then the path-case
mismatch check raising ObjectNotFoundError, then the delete. -/
def delete_case_ioc (u : User) (case_id identifier : Nat) (st : St) :
    ApiResponse × St :=
  let st1 := logEv st (Event.bizInvoked BizOp.getOp identifier)
  match iocs_get st.db identifier with
  | .error _ => (ApiResponse.notFound, st1)
  | .ok ioc =>
    let allowed := ac_fast_check_user_has_case_access u ioc.case_id [CaseAccessLevel.full_access]
    let st2 := logEv st1 (Event.authCheck ioc.case_id allowed)
    if allowed = false then (ApiResponse.accessDenied ioc.case_id, st2)
    else if ioc.case_id != case_id then (ApiResponse.notFound, st2)
    else
      let st3 := logEv st2 (Event.bizInvoked BizOp.deleteOp identifier)
      (ApiResponse.deleted, iocs_delete_entity st3 ioc)

/-- Embedding of get_case_ioc: fetch by identifier first, then access
check against the owning case, then the path-case mismatch check, then
the serialized entity. -/
def get_case_ioc (u : User) (case_id identifier : Nat) (st : St) :
    ApiResponse × St :=
  let st1 := logEv st (Event.bizInvoked BizOp.getOp identifier)
  match iocs_get st.db identifier with
  | .error _ => (ApiResponse.notFound, st1)
  | .ok ioc =>
    let allowed := ac_fast_check_user_has_case_access u ioc.case_id
        [CaseAccessLevel.read_only, CaseAccessLevel.full_access]
    let st2 := logEv st1 (Event.authCheck ioc.case_id allowed)
    if allowed = false then (ApiResponse.accessDenied ioc.case_id, st2)
    else if ioc.case_id != case_id then (ApiResponse.notFound, st2)
    else (ApiResponse.success (PayloadData.iocData ioc), st2)

/-- Embedding of update_ioc of app/blueprints/rest/v2/cases/iocs.py:
fetch by identifier first, then access check against the owning case
with full_access required, then the entity update; there is no path-case
mismatch check on this route.  A BusinessProcessingError maps to an
error response carrying message and data. -/
def update_ioc (u : User) (case_id identifier : Nat) (request_json : RawPayload)
    (ports : Ports) (st : St) : ApiResponse × St :=
  let st1 := logEv st (Event.bizInvoked BizOp.getOp identifier)
  match iocs_get st.db identifier with
  | .error _ => (ApiResponse.notFound, st1)
  | .ok ioc =>
    let allowed := ac_fast_check_user_has_case_access u ioc.case_id [CaseAccessLevel.full_access]
    let st2 := logEv st1 (Event.authCheck ioc.case_id allowed)
    if allowed = false then (ApiResponse.accessDenied ioc.case_id, st2)
    else
      let st3 := logEv st2 (Event.bizInvoked BizOp.updateOp identifier)
      match iocs_update_entity ports ioc request_json st3 with
      | (.ok ioc', st') => (ApiResponse.success (PayloadData.iocData ioc'), st')
      | (.error .objectNotFoundError, st') => (ApiResponse.notFound, st')
      | (.error e, st') => (ApiResponse.apiError e.get_message e.get_data, st')

/-- Embedding of case_delete_task of api_v2_case_tasks_routes.py: fetch
the task first, then access check against its owning case; note the
denied response is built with the task identifier in place of a case
identifier, exactly as in the source. -/
def case_delete_task (u : User) (identifier : Nat) (st : St) : ApiResponse × St :=
  let st1 := logEv st (Event.bizInvoked BizOp.getOp identifier)
  match tasks_get st.db identifier with
  | .error _ => (ApiResponse.notFound, st1)
  | .ok task =>
    let allowed := ac_fast_check_user_has_case_access u task.task_case_id
        [CaseAccessLevel.full_access]
    let st2 := logEv st1 (Event.authCheck task.task_case_id allowed)
    if allowed = false then (ApiResponse.accessDenied identifier, st2)
    else
      let st3 := logEv st2 (Event.bizInvoked BizOp.deleteOp identifier)
      (ApiResponse.deleted, tasks_delete st3 task)

/-- Embedding of get_cases of app/blueprints/rest/v2/cases: filtering
collaborator then the same pagination envelope as the IOC list. -/
def get_cases (u : User) (args : CaseListArgs) (ports : Ports) (st : St) :
    ApiResponse × St :=
  match ports.getFilteredCases args u.id st.db with
  | none => (ApiResponse.apiError "Filtering error" none, st)
  | some pag =>
    (ApiResponse.success (PayloadData.paginatedCases pag.total pag.items pag.pages pag.page
      (if pag.has_next then some pag.next_num else none)), st)

/-! Concrete collaborator instances and sample data, used to evaluate the
theorems on closed inputs. -/

/-- A concrete marshmallow-style validator: ioc_value and ioc_type_id are
required fields, everything else defaults. -/
def stdSchemaLoad (p : RawPayload) : Except (List (String × String)) Ioc :=
  match p.ioc_value, p.ioc_type_id with
  | none, _ => .error [("ioc_value", "Missing data for required field.")]
  | _, none => .error [("ioc_type_id", "Missing data for required field.")]
  | some v, some t =>
    .ok (Ioc.mk (p.ioc_id.getD 0) (p.ioc_uuid.getD "") v t (p.ioc_description.getD "")
      (p.ioc_tlp_id.getD 0) (p.ioc_tags.getD "") (p.ioc_misp.getD "") 0 (p.case_id.getD 0))

/-- A concrete merge load applying supplied fields over an existing
instance. -/
def stdSchemaLoadMerge (p : RawPayload) (inst : Ioc) :
    Except (List (String × String)) Ioc :=
  .ok (Ioc.mk (p.ioc_id.getD inst.ioc_id) (p.ioc_uuid.getD inst.ioc_uuid)
    (p.ioc_value.getD inst.ioc_value) (p.ioc_type_id.getD inst.ioc_type_id)
    (p.ioc_description.getD inst.ioc_description) (p.ioc_tlp_id.getD inst.ioc_tlp_id)
    (p.ioc_tags.getD inst.ioc_tags) (p.ioc_misp.getD inst.ioc_misp)
    inst.user_id (p.case_id.getD inst.case_id))

def paginate {α : Type} (l : List α) (page per_page : Nat) : Pagination α :=
  Pagination.mk ((l.drop ((page - 1) * per_page)).take per_page) l.length page
    ((l.length + per_page - 1) / per_page)

/-- Ports instance with identity hooks and the concrete validator. -/
def stdPorts : Ports :=
  Ports.mk 1 (fun p _ => p) (fun i _ => some i) (fun p _ => p) (fun i _ => some i)
    stdSchemaLoad stdSchemaLoadMerge
    (fun caseid args db => some (paginate (db.iocs.filter (fun i => i.case_id == caseid))
      args.page args.per_page))
    (fun args _ db => some (paginate db.cases args.page args.per_page))

/-- Ports instance whose post-create and post-update hooks return no
payload. -/
def noPostPorts : Ports :=
  { stdPorts with postloadCreate := fun _ _ => none, postloadUpdate := fun _ _ => none }

def sampleIoc : Ioc := Ioc.mk 1 "uuid-1" "1.2.3.4" 1 "an ip" 2 "" "" 1 5

def sampleDB : DB := DB.mk [sampleIoc] [CaseTask.mk 1 5 "triage"] [CaseRow.mk 5 "c5"] [1, 2] []

def sampleSt : St := St.mk sampleDB []

def emptySt : St := St.mk (DB.mk [] [] [] [1, 2] []) []

def samplePayload : RawPayload :=
  { ioc_value := some "9.9.9.9", ioc_type_id := some 1 }

def badPayload : RawPayload := { ioc_description := some "no value given" }

/-- A user holding full_access on case 5 only. -/
def userFull5 : User := User.mk 1 false [(5, CaseAccessLevel.full_access)]

/-- A user holding no grant at all. -/
def userNone : User := User.mk 2 false []

/-! Helper predicates over runs. -/

/-- Expresses the claimed invocation discipline over an event trace:
every business-operation invocation is preceded by some earlier
authorization check. -/
def authBeforeBizAux : Bool → List Event → Bool
  | _, [] => true
  | _, Event.authCheck _ _ :: rest => authBeforeBizAux true rest
  | seen, Event.bizInvoked _ _ :: rest => seen && authBeforeBizAux seen rest
  | seen, _ :: rest => authBeforeBizAux seen rest

def authBeforeBiz (tr : List Event) : Bool :=
  authBeforeBizAux false tr

/-- Whether a business-layer outcome is a raised ValidationError. -/
def resultIsValidationError {α : Type} : Except BErr α × St → Bool
  | (.error (.validationError _), _) => true
  | _ => false

/-- Whether a business-layer outcome is a raised BusinessProcessingError. -/
def resultIsBusinessProcessingError {α : Type} : Except BErr α × St → Bool
  | (.error e, _) => e.is_business_processing_error
  | _ => false

/-- Whether a business-layer outcome is a raised ObjectNotFoundError. -/
def resultIsObjectNotFound {α : Type} : Except BErr α × St → Bool
  | (.error .objectNotFoundError, _) => true
  | _ => false

/-! Shared lemmas. -/

theorem all_appendIf {α : Type} (l : List IocCond) (o : Option α) (f : α → IocCond)
    (i : Ioc) :
    ((appendIf l o f).all (fun c => c.holds i) = true)
      ↔ ((l.all (fun c => c.holds i) = true) ∧ ∀ v, o = some v → (f v).holds i = true) := by
  cases o <;> simp [appendIf]

theorem length_appendIf {α : Type} (l : List IocCond) (o : Option α) (f : α → IocCond) :
    (appendIf l o f).length = l.length + (if o.isSome then 1 else 0) := by
  cases o <;> simp [appendIf]

theorem activity_add_ioc (st : St) (ioc : Ioc) (uid cid : Nat) :
    (add_ioc st ioc uid cid).2.2.db.activity = st.db.activity := rfl

theorem trace_add_ioc (st : St) (ioc : Ioc) (uid cid : Nat) :
    (add_ioc st ioc uid cid).2.2.trace = st.trace ++ [Event.persisted cid] := rfl

theorem activity_track (st : St) (msg : String) (c : Nat) :
    (track_activity st msg c).db.activity = st.db.activity ++ [ActivityEntry.mk c msg] := rfl

theorem trace_track (st : St) (msg : String) (c : Nat) :
    (track_activity st msg c).trace = st.trace ++ [Event.tracked c] := rfl

theorem activity_commit (st : St) (c ident : Nat) (m : Ioc) :
    (commit_ioc_update st c ident m).db.activity = st.db.activity := rfl

theorem trace_commit (st : St) (c ident : Nat) (m : Ioc) :
    (commit_ioc_update st c ident m).trace = st.trace ++ [Event.persisted c] := rfl

theorem activity_delete_db (st : St) (i : Ioc) :
    (delete_ioc_db st i).db.activity = st.db.activity := rfl

theorem trace_delete_db (st : St) (i : Ioc) :
    (delete_ioc_db st i).trace = st.trace ++ [Event.persisted i.case_id] := rfl

theorem stdPorts_merge_case_id : ∀ (p : RawPayload) (inst i : Ioc),
    stdPorts.schemaLoadMerge p inst = Except.ok i →
    i.case_id = p.case_id.getD inst.case_id := by
  intro p inst i hh
  simp only [stdPorts, stdSchemaLoadMerge, Except.ok.injEq] at hh
  rw [← hh]

/-! Claims. -/

/-- C2: every successful IOC create, update, or delete produces exactly
one activity-tracker entry referencing the entity's owning case, recorded
only after the mutation has been persisted (the trace shows the persist
event strictly before the tracked event), and no entry is produced on a
failed or denied attempt. -/
theorem c2_one_activity_entry (ports : Ports) (json : RawPayload) (cid identifier : Nat)
    (st : St)
    (hmerge : ∀ p inst i, ports.schemaLoadMerge p inst = Except.ok i →
      i.case_id = p.case_id.getD inst.case_id) :
    -- create: success yields one entry on the owning case, after the persist
    ((∀ i m st', iocs_create ports json cid st = (Except.ok (i, m), st') →
        (∃ msg, st'.db.activity = st.db.activity ++ [ActivityEntry.mk cid msg])
        ∧ st'.trace = st.trace ++ [Event.persisted cid, Event.tracked cid]
        ∧ (∃ stored, st'.db.iocs = st.db.iocs ++ [stored] ∧ stored.case_id = cid))
     ∧ (∀ e st', iocs_create ports json cid st = (Except.error e, st') →
        st'.db.activity = st.db.activity)
     -- a denied create attempt at the calling layer produces no entry
     ∧ (∀ u, ac_fast_check_user_has_case_access u cid [CaseAccessLevel.full_access] = false →
        (add_ioc_to_case u cid json ports st).2.db.activity = st.db.activity)
     -- update
     ∧ (∀ ioc, get_ioc st.db identifier = some ioc →
        ∀ i m st', iocs_update ports identifier json st = (Except.ok (i, m), st') →
          (∃ msg, st'.db.activity = st.db.activity ++ [ActivityEntry.mk ioc.case_id msg])
          ∧ st'.trace = st.trace ++ [Event.persisted ioc.case_id, Event.tracked ioc.case_id]
          ∧ i.case_id = ioc.case_id)
     ∧ (∀ e st', iocs_update ports identifier json st = (Except.error e, st') →
        st'.db.activity = st.db.activity)
     -- delete
     ∧ (∀ ioc, get_ioc st.db identifier = some ioc →
        ∀ m st', iocs_delete ports identifier st = (Except.ok m, st') →
          (∃ msg, st'.db.activity = st.db.activity ++ [ActivityEntry.mk ioc.case_id msg])
          ∧ st'.trace = st.trace ++ [Event.persisted ioc.case_id, Event.tracked ioc.case_id])
     ∧ (∀ e st', iocs_delete ports identifier st = (Except.error e, st') →
        st'.db.activity = st.db.activity)) := by
  refine ⟨?_, ?_, ?_, ?_, ?_, ?_, ?_⟩
  · -- create success
    intro i m st' hrun
    cases hload : load_ioc ports (forced_create_payload (ports.preloadCreate json cid) cid) with
    | error e => simp [iocs_create, hload] at hrun
    | ok ioc0 =>
      cases htype : check_ioc_type_id st.db ioc0.ioc_type_id with
      | false => simp [iocs_create, hload, htype] at hrun
      | true =>
        cases hpost : ports.postloadCreate (add_ioc st ioc0 ports.currentUserId cid).1 cid with
        | none => simp [iocs_create, hload, htype, hpost] at hrun
        | some ioc2 =>
          simp only [iocs_create, hload, htype, Bool.true_eq_false, if_false, hpost,
            Prod.mk.injEq, Except.ok.injEq] at hrun
          obtain ⟨⟨hi, hmeq⟩, hst⟩ := hrun
          subst hst
          refine ⟨⟨"added ioc \"" ++ ioc2.ioc_value ++ "\"",
              by simp [activity_track, activity_add_ioc]⟩,
            by simp [trace_track, trace_add_ioc], ?_⟩
          refine ⟨(add_ioc st ioc0 ports.currentUserId cid).1, ?_, rfl⟩
          simp [track_activity, add_ioc]
  · -- create failure
    intro e st' hrun
    cases hload : load_ioc ports (forced_create_payload (ports.preloadCreate json cid) cid) with
    | error e0 =>
      simp only [iocs_create, hload, Prod.mk.injEq] at hrun
      rw [← hrun.2]
    | ok ioc0 =>
      cases htype : check_ioc_type_id st.db ioc0.ioc_type_id with
      | false =>
        simp only [iocs_create, hload, htype, Prod.mk.injEq, if_true,
          eq_self_iff_true] at hrun
        rw [← hrun.2]
      | true =>
        cases hpost : ports.postloadCreate (add_ioc st ioc0 ports.currentUserId cid).1 cid with
        | some ioc2 => simp [iocs_create, hload, htype, hpost] at hrun
        | none =>
          simp only [iocs_create, hload, htype, Bool.true_eq_false, if_false, hpost,
            Prod.mk.injEq] at hrun
          rw [← hrun.2, activity_add_ioc]
  · -- denied create attempt
    intro u hdeny
    simp [add_ioc_to_case, hdeny, logEv]
  · -- update success
    intro ioc hioc i m st' hrun
    cases hm : ports.schemaLoadMerge
        (forced_update_payload (ports.preloadUpdate json ioc.case_id) identifier ioc.case_id)
        ioc with
    | error msgs => simp [iocs_update, iocs_update_body, hioc, hm] at hrun
    | ok merged0 =>
      cases htype : check_ioc_type_id st.db (with_user merged0 ports.currentUserId).ioc_type_id with
      | false => simp [iocs_update, iocs_update_body, hioc, hm, htype] at hrun
      | true =>
        cases hpost : ports.postloadUpdate (with_user merged0 ports.currentUserId)
            ioc.case_id with
        | none => simp [iocs_update, iocs_update_body, hioc, hm, htype, hpost] at hrun
        | some merged2 =>
          simp only [iocs_update, iocs_update_body, hioc, hm, htype, Bool.true_eq_false,
            if_false, hpost, Prod.mk.injEq, Except.ok.injEq] at hrun
          obtain ⟨⟨hi, hmeq⟩, hst⟩ := hrun
          subst hst
          refine ⟨⟨"updated ioc \"" ++ merged2.ioc_value ++ "\"",
              by simp [activity_track, activity_commit]⟩,
            by simp [trace_track, trace_commit], ?_⟩
          rw [← hi]
          have hc := hmerge _ _ _ hm
          simp only [forced_update_payload] at hc
          simp [with_user, hc]
  · -- update failure
    intro e st' hrun
    cases hioc : get_ioc st.db identifier with
    | none =>
      simp only [iocs_update, iocs_update_body, hioc, Prod.mk.injEq] at hrun
      rw [← hrun.2]
    | some ioc =>
      cases hm : ports.schemaLoadMerge
          (forced_update_payload (ports.preloadUpdate json ioc.case_id) identifier ioc.case_id)
          ioc with
      | error msgs =>
        simp only [iocs_update, iocs_update_body, hioc, hm, Prod.mk.injEq] at hrun
        rw [← hrun.2]
      | ok merged0 =>
        cases htype : check_ioc_type_id st.db
            (with_user merged0 ports.currentUserId).ioc_type_id with
        | false =>
          simp only [iocs_update, iocs_update_body, hioc, hm, htype, Prod.mk.injEq,
            if_true, eq_self_iff_true] at hrun
          rw [← hrun.2]
        | true =>
          cases hpost : ports.postloadUpdate (with_user merged0 ports.currentUserId)
              ioc.case_id with
          | some merged2 =>
            simp [iocs_update, iocs_update_body, hioc, hm, htype, hpost] at hrun
          | none =>
            simp only [iocs_update, iocs_update_body, hioc, hm, htype, Bool.true_eq_false,
              if_false, hpost, Prod.mk.injEq] at hrun
            rw [← hrun.2, activity_commit]
  · -- delete success
    intro ioc hioc m st' hrun
    simp only [iocs_delete, hioc, Prod.mk.injEq, Except.ok.injEq] at hrun
    obtain ⟨hm, hst⟩ := hrun
    subst hst
    exact ⟨⟨"deleted IOC \"" ++ ioc.ioc_value ++ "\"",
        by simp [activity_track, activity_delete_db]⟩,
      by simp [trace_track, trace_delete_db]⟩
  · -- delete failure
    intro e st' hrun
    cases hioc : get_ioc st.db identifier with
    | none =>
      simp only [iocs_delete, hioc, Prod.mk.injEq] at hrun
      rw [← hrun.2]
    | some ioc => simp [iocs_delete, hioc] at hrun

/-- The entity stored by the concrete create run used as evaluation
input. -/
def createdIoc : Ioc := Ioc.mk 2 "" "9.9.9.9" 1 "" 0 "" "" 1 5

/-- The entity produced by the concrete validator on samplePayload. -/
def loadedIoc : Ioc := Ioc.mk 0 "" "9.9.9.9" 1 "" 0 "" "" 0 5

/-- The state after the concrete successful create run. -/
def afterCreateSt : St :=
  St.mk (DB.mk [sampleIoc, createdIoc] [CaseTask.mk 1 5 "triage"] [CaseRow.mk 5 "c5"] [1, 2]
    [ActivityEntry.mk 5 "added ioc \"9.9.9.9\""]) [Event.persisted 5, Event.tracked 5]

/-- Ports instance whose merge load always fails validation. -/
def failMergePorts : Ports :=
  { stdPorts with schemaLoadMerge := fun _ _ =>
      Except.error [("ioc_value", "Missing data for required field.")] }

/-- Witness for c2_one_activity_entry: the validator hypothesis holds for
the concrete ports and the create conclusion evaluates on a concrete
run. -/
theorem c2_witness :
    (∀ p inst i, stdPorts.schemaLoadMerge p inst = Except.ok i →
      i.case_id = p.case_id.getD inst.case_id)
    ∧ ((∃ msg, afterCreateSt.db.activity
          = sampleSt.db.activity ++ [ActivityEntry.mk 5 msg])
       ∧ afterCreateSt.trace = sampleSt.trace ++ [Event.persisted 5, Event.tracked 5]
       ∧ (∃ stored, afterCreateSt.db.iocs = sampleSt.db.iocs ++ [stored]
            ∧ stored.case_id = 5)) :=
  ⟨stdPorts_merge_case_id,
    (c2_one_activity_entry stdPorts samplePayload 5 1 sampleSt stdPorts_merge_case_id).1
      createdIoc "IOC added" afterCreateSt rfl⟩

/-- C3 counterexample: with a post-create hook chain returning no
payload, the create has already persisted the entity, yet the operation
is reported as failed with a BusinessProcessingError, so the hook failure
is neither isolated nor unpropagated. -/
theorem c3_counterexample :
    (iocs_create noPostPorts samplePayload 5 sampleSt).1
        = Except.error (BErr.bpePlain "Unable to create IOC for internal reasons")
    ∧ (iocs_create noPostPorts samplePayload 5 sampleSt).2.db.iocs
        = sampleSt.db.iocs ++ [createdIoc] := ⟨rfl, rfl⟩

/-- C3 amended: when the post-commit hook chain of a create or update
returns no payload, the already persisted mutation is kept (no rollback)
and no audit entry is recorded, but the operation is reported to the
caller as failed with a BusinessProcessingError instead of being isolated. -/
theorem c3_post_hook_not_isolated (ports : Ports) (json : RawPayload)
    (cid identifier : Nat) (st : St) :
    (∀ ioc0, ports.postloadCreate (add_ioc st ioc0 ports.currentUserId cid).1 cid = none →
      load_ioc ports (forced_create_payload (ports.preloadCreate json cid) cid)
        = Except.ok ioc0 →
      check_ioc_type_id st.db ioc0.ioc_type_id = true →
      iocs_create ports json cid st
        = (Except.error (BErr.bpePlain "Unable to create IOC for internal reasons"),
           (add_ioc st ioc0 ports.currentUserId cid).2.2))
    ∧ (∀ ioc merged0, get_ioc st.db identifier = some ioc →
        ports.schemaLoadMerge (forced_update_payload (ports.preloadUpdate json ioc.case_id)
          identifier ioc.case_id) ioc = Except.ok merged0 →
        ports.postloadUpdate (with_user merged0 ports.currentUserId) ioc.case_id = none →
        check_ioc_type_id st.db (with_user merged0 ports.currentUserId).ioc_type_id = true →
        iocs_update ports identifier json st
          = (Except.error (BErr.bpeWrapped "Unexpected error server-side"
               (BErr.bpePlain "Unable to update ioc for internal reasons")),
             commit_ioc_update st ioc.case_id identifier
               (with_user merged0 ports.currentUserId))) := by
  constructor
  · intro ioc0 hpost hload htype
    simp only [iocs_create, hload, htype, Bool.true_eq_false, if_false, hpost]
  · intro ioc merged0 hioc hm hpost htype
    simp only [iocs_update, iocs_update_body, hioc, hm, htype, Bool.true_eq_false,
      if_false, hpost]

/-- Witness for c3_post_hook_not_isolated on the concrete run. -/
theorem c3_witness :
    noPostPorts.postloadCreate (add_ioc sampleSt loadedIoc noPostPorts.currentUserId 5).1 5
        = none
    ∧ load_ioc noPostPorts (forced_create_payload (noPostPorts.preloadCreate samplePayload 5) 5)
        = Except.ok loadedIoc
    ∧ check_ioc_type_id sampleSt.db loadedIoc.ioc_type_id = true
    ∧ iocs_create noPostPorts samplePayload 5 sampleSt
        = (Except.error (BErr.bpePlain "Unable to create IOC for internal reasons"),
           (add_ioc sampleSt loadedIoc noPostPorts.currentUserId 5).2.2) :=
  ⟨rfl, rfl, rfl,
    (c3_post_hook_not_isolated noPostPorts samplePayload 5 1 sampleSt).1 loadedIoc rfl rfl rfl⟩

/-- C4 counterexample: the business-layer update and delete invoked with
an identifier matching no IOC raise a generic BusinessProcessingError,
not a not-found outcome. -/
theorem c4_counterexample :
    resultIsBusinessProcessingError (iocs_update stdPorts 1 samplePayload emptySt) = true
    ∧ resultIsObjectNotFound (iocs_update stdPorts 1 samplePayload emptySt) = false
    ∧ (iocs_update stdPorts 1 samplePayload emptySt).1
        = Except.error (BErr.bpeWrapped "Unexpected error server-side"
            (BErr.bpePlain "Invalid IOC ID for this case"))
    ∧ resultIsBusinessProcessingError (iocs_delete stdPorts 1 emptySt) = true
    ∧ resultIsObjectNotFound (iocs_delete stdPorts 1 emptySt) = false
    ∧ (iocs_delete stdPorts 1 emptySt).1
        = Except.error (BErr.bpePlain "Not a valid IOC for this case") :=
  ⟨rfl, rfl, rfl, rfl, rfl, rfl⟩

/-- C4 amended: at the v2 REST boundary an update or delete with an
unknown identifier yields a not-found response and leaves the database
unchanged, because the fetch raises ObjectNotFoundError first; the
business-layer iocs_update and iocs_delete themselves signal the unknown
identifier as a BusinessProcessingError, not as a not-found outcome. -/
theorem c4_not_found_at_rest_boundary (u : User) (case_id identifier : Nat)
    (json : RawPayload) (ports : Ports) (st : St)
    (hnone : get_ioc st.db identifier = none) :
    (delete_case_ioc u case_id identifier st).1 = ApiResponse.notFound
    ∧ (delete_case_ioc u case_id identifier st).2.db = st.db
    ∧ (update_ioc u case_id identifier json ports st).1 = ApiResponse.notFound
    ∧ (update_ioc u case_id identifier json ports st).2.db = st.db
    ∧ (iocs_update ports identifier json st).1
        = Except.error (BErr.bpeWrapped "Unexpected error server-side"
            (BErr.bpePlain "Invalid IOC ID for this case"))
    ∧ (iocs_delete ports identifier st).1
        = Except.error (BErr.bpePlain "Not a valid IOC for this case") := by
  refine ⟨?_, ?_, ?_, ?_, ?_, ?_⟩ <;>
    simp [delete_case_ioc, update_ioc, iocs_get, iocs_update, iocs_update_body,
      iocs_delete, hnone, logEv]

/-- Witness for c4_not_found_at_rest_boundary on an empty database. -/
theorem c4_witness :
    get_ioc emptySt.db 1 = none
    ∧ (delete_case_ioc userNone 7 1 emptySt).1 = ApiResponse.notFound
    ∧ (delete_case_ioc userNone 7 1 emptySt).2.db = emptySt.db
    ∧ (update_ioc userNone 7 1 samplePayload stdPorts emptySt).1 = ApiResponse.notFound
    ∧ (update_ioc userNone 7 1 samplePayload stdPorts emptySt).2.db = emptySt.db
    ∧ (iocs_update stdPorts 1 samplePayload emptySt).1
        = Except.error (BErr.bpeWrapped "Unexpected error server-side"
            (BErr.bpePlain "Invalid IOC ID for this case"))
    ∧ (iocs_delete stdPorts 1 emptySt).1
        = Except.error (BErr.bpePlain "Not a valid IOC for this case") :=
  ⟨rfl, c4_not_found_at_rest_boundary userNone 7 1 samplePayload stdPorts emptySt rfl⟩

/-- C5 counterexample: on a payload missing a required field the create
fails with a BusinessProcessingError wrapping the field messages, not
with a ValidationError; the state is untouched. -/
theorem c5_counterexample :
    resultIsValidationError (iocs_create stdPorts badPayload 5 sampleSt) = false
    ∧ iocs_create stdPorts badPayload 5 sampleSt
        = (Except.error (BErr.bpeMessages "Data error"
            [("ioc_value", "Missing data for required field.")]), sampleSt) := ⟨rfl, rfl⟩

/-- C5 amended: a create or update whose payload fails schema validation
fails with a BusinessProcessingError with message Data error carrying the
per-field messages of the underlying ValidationError, and the state is
left entirely unchanged (nothing persisted). -/
theorem c5_validation_failure_wrapped (ports : Ports) (json : RawPayload)
    (cid identifier : Nat) (st : St) (msgs : List (String × String)) :
    (ports.schemaLoad (forced_create_payload (ports.preloadCreate json cid) cid)
        = Except.error msgs →
      iocs_create ports json cid st
        = (Except.error (BErr.bpeMessages "Data error" msgs), st))
    ∧ (∀ ioc, get_ioc st.db identifier = some ioc →
        ports.schemaLoadMerge (forced_update_payload (ports.preloadUpdate json ioc.case_id)
          identifier ioc.case_id) ioc = Except.error msgs →
        iocs_update ports identifier json st
          = (Except.error (BErr.bpeMessages "Data error" msgs), st)) := by
  constructor
  · intro hload
    simp [iocs_create, load_ioc, hload]
  · intro ioc hioc hm
    simp [iocs_update, iocs_update_body, hioc, hm]

/-- Witness for c5_validation_failure_wrapped on a concrete failing load
and a concrete failing merge. -/
theorem c5_witness :
    (failMergePorts.schemaLoad
        (forced_create_payload (failMergePorts.preloadCreate badPayload 5) 5)
      = Except.error [("ioc_value", "Missing data for required field.")])
    ∧ iocs_create failMergePorts badPayload 5 sampleSt
        = (Except.error (BErr.bpeMessages "Data error"
            [("ioc_value", "Missing data for required field.")]), sampleSt)
    ∧ iocs_update failMergePorts 1 samplePayload sampleSt
        = (Except.error (BErr.bpeMessages "Data error"
            [("ioc_value", "Missing data for required field.")]), sampleSt) :=
  ⟨rfl,
    (c5_validation_failure_wrapped failMergePorts badPayload 5 1 sampleSt
      [("ioc_value", "Missing data for required field.")]).1 rfl,
    (c5_validation_failure_wrapped failMergePorts samplePayload 5 1 sampleSt
      [("ioc_value", "Missing data for required field.")]).2 sampleIoc rfl rfl⟩

/-- C7: iocs_build_filter_query builds its query as the conjunction (AND)
of exactly one equality condition per filter argument that is supplied
(not None); every omitted (None) filter argument imposes no constraint on
the result.  The first conjunct characterizes membership in the filtered
result as the conjunction of the supplied equalities; the second counts
exactly one condition per supplied argument. -/
theorem c7_filter_query_conjunction (a : Option Nat) (b c : Option String)
    (d : Option Nat) (e : Option String) (f : Option Nat) (g h : Option String)
    (u lc : Option Nat) (i : Ioc) :
    ((iocMatchesQuery (iocs_build_filter_query a b c d e f g h u lc) i = true
      ↔ ((∀ v, a = some v → i.ioc_id = v) ∧ (∀ v, b = some v → i.ioc_uuid = v)
        ∧ (∀ v, c = some v → i.ioc_value = v) ∧ (∀ v, d = some v → i.ioc_type_id = v)
        ∧ (∀ v, e = some v → i.ioc_description = v) ∧ (∀ v, f = some v → i.ioc_tlp_id = v)
        ∧ (∀ v, g = some v → i.ioc_tags = v) ∧ (∀ v, h = some v → i.ioc_misp = v)
        ∧ (∀ v, u = some v → i.user_id = v)))
     ∧ (iocs_build_filter_query a b c d e f g h u lc).conditions.length
        = (if a.isSome then 1 else 0) + (if b.isSome then 1 else 0)
          + (if c.isSome then 1 else 0) + (if d.isSome then 1 else 0)
          + (if e.isSome then 1 else 0) + (if f.isSome then 1 else 0)
          + (if g.isSome then 1 else 0) + (if h.isSome then 1 else 0)
          + (if u.isSome then 1 else 0)) := by
  constructor
  · simp only [iocMatchesQuery, iocs_build_filter_query, all_appendIf, List.all_nil,
      true_and, and_assoc]
    simp [IocCond.holds]
  · simp only [iocs_build_filter_query, length_appendIf, List.length_nil, Nat.zero_add]

/-- C10: for all argument values, the query returned by
iocs_build_filter_query with linked_cases supplied equals the query
returned with linked_cases omitted; the parameter only raises the
deprecation-warning flag and contributes no filter condition. -/
theorem c10_linked_cases_no_condition (a : Option Nat) (b c : Option String)
    (d : Option Nat) (e : Option String) (f : Option Nat) (g h : Option String)
    (u : Option Nat) (x : Nat) :
    ((iocs_build_filter_query a b c d e f g h u (some x)).conditions
        = (iocs_build_filter_query a b c d e f g h u none).conditions
     ∧ (iocs_build_filter_query a b c d e f g h u (some x)).deprecation_warned = true
     ∧ (iocs_build_filter_query a b c d e f g h u none).deprecation_warned = false) := by
  simp [iocs_build_filter_query]


/-- C6: a delete or get of an IOC whose owning case differs from the case
supplied in the request path yields a not-found response and performs no
deletion, for a user holding the required access on the owning case. -/
theorem c6_cross_case_identifier_not_found (u : User) (case_id identifier : Nat)
    (st : St) (ioc : Ioc) (hioc : get_ioc st.db identifier = some ioc)
    (hmismatch : ioc.case_id ≠ case_id) :
    (ac_fast_check_user_has_case_access u ioc.case_id [CaseAccessLevel.full_access] = true →
      (delete_case_ioc u case_id identifier st).1 = ApiResponse.notFound
      ∧ (delete_case_ioc u case_id identifier st).2.db = st.db)
    ∧ (ac_fast_check_user_has_case_access u ioc.case_id
        [CaseAccessLevel.read_only, CaseAccessLevel.full_access] = true →
      (get_case_ioc u case_id identifier st).1 = ApiResponse.notFound
      ∧ (get_case_ioc u case_id identifier st).2.db = st.db) := by
  constructor
  · intro hallow
    constructor <;>
      simp [delete_case_ioc, iocs_get, hioc, hallow, hmismatch, logEv]
  · intro hallow
    constructor <;>
      simp [get_case_ioc, iocs_get, hioc, hallow, hmismatch, logEv]

/-- Witness for c6_cross_case_identifier_not_found: the sample IOC owned
by case 5 requested under path case 7 by a user with full access on
case 5. -/
theorem c6_witness :
    get_ioc sampleSt.db 1 = some sampleIoc
    ∧ sampleIoc.case_id ≠ 7
    ∧ ((ac_fast_check_user_has_case_access userFull5 sampleIoc.case_id
          [CaseAccessLevel.full_access] = true →
        (delete_case_ioc userFull5 7 1 sampleSt).1 = ApiResponse.notFound
        ∧ (delete_case_ioc userFull5 7 1 sampleSt).2.db = sampleSt.db)
       ∧ (ac_fast_check_user_has_case_access userFull5 sampleIoc.case_id
            [CaseAccessLevel.read_only, CaseAccessLevel.full_access] = true →
        (get_case_ioc userFull5 7 1 sampleSt).1 = ApiResponse.notFound
        ∧ (get_case_ioc userFull5 7 1 sampleSt).2.db = sampleSt.db)) :=
  ⟨rfl, by decide,
    c6_cross_case_identifier_not_found userFull5 7 1 sampleSt sampleIoc rfl (by decide)⟩

/-- C9: for get, update, and delete of an IOC by identifier the per-case
access check is evaluated against the IOC's actual owning case and before
the path-case mismatch check: a user lacking the required access on the
owning case receives access-denied rather than not-found, for every path
case including one differing from the owning case. -/
theorem c9_access_check_on_owning_case (u : User) (case_id identifier : Nat)
    (json : RawPayload) (ports : Ports) (st : St) (ioc : Ioc)
    (hioc : get_ioc st.db identifier = some ioc) :
    (ac_fast_check_user_has_case_access u ioc.case_id
        [CaseAccessLevel.read_only, CaseAccessLevel.full_access] = false →
      (get_case_ioc u case_id identifier st).1 = ApiResponse.accessDenied ioc.case_id)
    ∧ (ac_fast_check_user_has_case_access u ioc.case_id [CaseAccessLevel.full_access] = false →
      (delete_case_ioc u case_id identifier st).1 = ApiResponse.accessDenied ioc.case_id
      ∧ (delete_case_ioc u case_id identifier st).2.db = st.db)
    ∧ (ac_fast_check_user_has_case_access u ioc.case_id [CaseAccessLevel.full_access] = false →
      (update_ioc u case_id identifier json ports st).1 = ApiResponse.accessDenied ioc.case_id
      ∧ (update_ioc u case_id identifier json ports st).2.db = st.db) := by
  refine ⟨?_, ?_, ?_⟩
  · intro hdeny
    simp [get_case_ioc, iocs_get, hioc, hdeny, logEv]
  · intro hdeny
    constructor <;> simp [delete_case_ioc, iocs_get, hioc, hdeny, logEv]
  · intro hdeny
    constructor <;> simp [update_ioc, iocs_get, hioc, hdeny, logEv]

/-- Witness for c9_access_check_on_owning_case: a user with no grant
requests the IOC owned by case 5 under the differing path case 7 and
receives access-denied naming case 5, not a not-found response. -/
theorem c9_witness :
    get_ioc sampleSt.db 1 = some sampleIoc
    ∧ ((ac_fast_check_user_has_case_access userNone sampleIoc.case_id
          [CaseAccessLevel.read_only, CaseAccessLevel.full_access] = false →
        (get_case_ioc userNone 7 1 sampleSt).1 = ApiResponse.accessDenied sampleIoc.case_id)
       ∧ (ac_fast_check_user_has_case_access userNone sampleIoc.case_id
            [CaseAccessLevel.full_access] = false →
        (delete_case_ioc userNone 7 1 sampleSt).1 = ApiResponse.accessDenied sampleIoc.case_id
        ∧ (delete_case_ioc userNone 7 1 sampleSt).2.db = sampleSt.db)
       ∧ (ac_fast_check_user_has_case_access userNone sampleIoc.case_id
            [CaseAccessLevel.full_access] = false →
        (update_ioc userNone 7 1 samplePayload stdPorts sampleSt).1
            = ApiResponse.accessDenied sampleIoc.case_id
        ∧ (update_ioc userNone 7 1 samplePayload stdPorts sampleSt).2.db = sampleSt.db)) :=
  ⟨rfl, c9_access_check_on_owning_case userNone 7 1 samplePayload stdPorts sampleSt
    sampleIoc rfl⟩

/-- C1 counterexample: on the identifier-based get route the business get
operation is invoked before any authorization check is evaluated; the
trace of a denied request starts with the business invocation, violating
the claimed check-before-invoke discipline, even though the response is
access-denied. -/
theorem c1_counterexample :
    (get_case_ioc userNone 5 1 sampleSt).1 = ApiResponse.accessDenied 5
    ∧ (get_case_ioc userNone 5 1 sampleSt).2.trace
        = [Event.bizInvoked BizOp.getOp 1, Event.authCheck 5 false]
    ∧ authBeforeBiz ((get_case_ioc userNone 5 1 sampleSt).2.trace) = false := by decide

/-- C1 amended: for create the authorization check precedes the business
invocation and a deny short-circuits with access-denied, leaving state
untouched with no business event; for the identifier-based get, update,
delete routes the business fetch is invoked first, and the authorization
check is then evaluated against the fetched entity's owning case, a deny
short-circuiting with access-denied, no mutation, and no entity data in
the response. -/
theorem c1_deny_short_circuits (u : User) (case_id identifier : Nat)
    (json : RawPayload) (args : IocListArgs) (ports : Ports) (st : St) :
    (ac_fast_check_user_has_case_access u case_id [CaseAccessLevel.full_access] = false →
      add_ioc_to_case u case_id json ports st
        = (ApiResponse.accessDenied case_id, logEv st (Event.authCheck case_id false)))
    ∧ (ac_fast_check_user_has_case_access u case_id
          [CaseAccessLevel.read_only, CaseAccessLevel.full_access] = false →
      get_case_iocs u case_id args ports st
        = (ApiResponse.accessDenied case_id, logEv st (Event.authCheck case_id false)))
    ∧ (∀ ioc, get_ioc st.db identifier = some ioc →
        ac_fast_check_user_has_case_access u ioc.case_id
            [CaseAccessLevel.read_only, CaseAccessLevel.full_access] = false →
        get_case_ioc u case_id identifier st
          = (ApiResponse.accessDenied ioc.case_id,
             logEv (logEv st (Event.bizInvoked BizOp.getOp identifier))
               (Event.authCheck ioc.case_id false)))
    ∧ (∀ ioc, get_ioc st.db identifier = some ioc →
        ac_fast_check_user_has_case_access u ioc.case_id [CaseAccessLevel.full_access] = false →
        delete_case_ioc u case_id identifier st
          = (ApiResponse.accessDenied ioc.case_id,
             logEv (logEv st (Event.bizInvoked BizOp.getOp identifier))
               (Event.authCheck ioc.case_id false)))
    ∧ (∀ ioc, get_ioc st.db identifier = some ioc →
        ac_fast_check_user_has_case_access u ioc.case_id [CaseAccessLevel.full_access] = false →
        update_ioc u case_id identifier json ports st
          = (ApiResponse.accessDenied ioc.case_id,
             logEv (logEv st (Event.bizInvoked BizOp.getOp identifier))
               (Event.authCheck ioc.case_id false)))
    ∧ (∀ task, get_task st.db identifier = some task →
        ac_fast_check_user_has_case_access u task.task_case_id
            [CaseAccessLevel.full_access] = false →
        case_delete_task u identifier st
          = (ApiResponse.accessDenied identifier,
             logEv (logEv st (Event.bizInvoked BizOp.getOp identifier))
               (Event.authCheck task.task_case_id false))) := by
  refine ⟨?_, ?_, ?_, ?_, ?_, ?_⟩
  · intro hdeny
    simp [add_ioc_to_case, hdeny, logEv]
  · intro hdeny
    simp [get_case_iocs, hdeny, logEv]
  · intro ioc hioc hdeny
    simp [get_case_ioc, iocs_get, hioc, hdeny, logEv]
  · intro ioc hioc hdeny
    simp [delete_case_ioc, iocs_get, hioc, hdeny, logEv]
  · intro ioc hioc hdeny
    simp [update_ioc, iocs_get, hioc, hdeny, logEv]
  · intro task htask hdeny
    simp [case_delete_task, tasks_get, htask, hdeny, logEv]

/-- Witness for c1_deny_short_circuits: a grantless user is denied on the
create route of case 5 and on the task delete route, with the exact
denied responses and traces. -/
theorem c1_witness :
    ac_fast_check_user_has_case_access userNone 5 [CaseAccessLevel.full_access] = false
    ∧ add_ioc_to_case userNone 5 samplePayload stdPorts sampleSt
        = (ApiResponse.accessDenied 5, logEv sampleSt (Event.authCheck 5 false))
    ∧ get_task sampleSt.db 1 = some (CaseTask.mk 1 5 "triage")
    ∧ case_delete_task userNone 1 sampleSt
        = (ApiResponse.accessDenied 1,
           logEv (logEv sampleSt (Event.bizInvoked BizOp.getOp 1))
             (Event.authCheck 5 false)) :=
  ⟨rfl,
    (c1_deny_short_circuits userNone 5 1 samplePayload
      (IocListArgs.mk 1 10 none "asc" none none none none none none) stdPorts sampleSt).1 rfl,
    rfl,
    (c1_deny_short_circuits userNone 5 1 samplePayload
      (IocListArgs.mk 1 10 none "asc" none none none none none none) stdPorts
      sampleSt).2.2.2.2.2 (CaseTask.mk 1 5 "triage") rfl rfl⟩

/-- C8: every successful response of the paginated list endpoints (case
IOCs list and cases list) carries the envelope with fields total, data,
last_page, current_page and next_page, where next_page is the next page
number exactly when a next page exists and null otherwise. -/
theorem c8_pagination_envelope (u : User) (case_id : Nat) (args : IocListArgs)
    (cargs : CaseListArgs) (ports : Ports) (st : St) :
    (∀ pl st', get_case_iocs u case_id args ports st = (ApiResponse.success pl, st') →
      ∃ total data last_page current_page,
        pl = PayloadData.paginatedIocs total data last_page current_page
          (if current_page < last_page then some (current_page + 1) else none))
    ∧ (∀ pl st', get_cases u cargs ports st = (ApiResponse.success pl, st') →
      ∃ total data last_page current_page,
        pl = PayloadData.paginatedCases total data last_page current_page
          (if current_page < last_page then some (current_page + 1) else none)) := by
  constructor
  · intro pl st' hrun
    cases hacc : ac_fast_check_user_has_case_access u case_id
        [CaseAccessLevel.read_only, CaseAccessLevel.full_access] with
    | false => simp [get_case_iocs, hacc] at hrun
    | true =>
      cases hq : ports.getFilteredIocs case_id args st.db with
      | none => simp [get_case_iocs, hacc, hq] at hrun
      | some pag =>
        simp only [get_case_iocs, hacc, hq, Bool.true_eq_false, if_false,
          Prod.mk.injEq, ApiResponse.success.injEq] at hrun
        refine ⟨pag.total, pag.items, pag.pages, pag.page, ?_⟩
        rw [← hrun.1]
        simp [Pagination.has_next, Pagination.next_num]
  · intro pl st' hrun
    cases hq : ports.getFilteredCases cargs u.id st.db with
    | none => simp [get_cases, hq] at hrun
    | some pag =>
      simp only [get_cases, hq, Prod.mk.injEq, ApiResponse.success.injEq] at hrun
      refine ⟨pag.total, pag.items, pag.pages, pag.page, ?_⟩
      rw [← hrun.1]
      simp [Pagination.has_next, Pagination.next_num]

/-- Witness for c8_pagination_envelope on a concrete run of the IOC list
for case 5, whose single page has no next page. -/
theorem c8_witness :
    get_case_iocs userFull5 5 (IocListArgs.mk 1 10 none "asc" none none none none none none)
        stdPorts sampleSt
      = (ApiResponse.success (PayloadData.paginatedIocs 1 [sampleIoc] 1 1 none),
         logEv sampleSt (Event.authCheck 5 true))
    ∧ (∃ total data last_page current_page,
        PayloadData.paginatedIocs 1 [sampleIoc] 1 1 none
          = PayloadData.paginatedIocs total data last_page current_page
              (if current_page < last_page then some (current_page + 1) else none)) :=
  ⟨rfl,
    (c8_pagination_envelope userFull5 5
        (IocListArgs.mk 1 10 none "asc" none none none none none none)
        (CaseListArgs.mk 1 10 none none "asc" none none none none none none none none
          none none none none)
        stdPorts sampleSt).1
      (PayloadData.paginatedIocs 1 [sampleIoc] 1 1 none)
      (logEv sampleSt (Event.authCheck 5 true)) rfl⟩


end IrisSpec
